import Mathlib

/-!
Shallow embedding of the rustls-spiffe identity-to-TLS-configuration
pipeline (src/trust_domain_store.rs, src/client_stream.rs,
src/server_stream.rs, src/svid_extractor.rs).

Certificates and private keys are byte strings, modelled as lists of
naturals.  The external libraries (rustls certificate parsing, rustls
config assembly, webpki verifier construction, x509 parsing, spiffe-id
parsing) are not part of this repository; their behaviour enters as
explicit function parameters so that every theorem holds for every
behaviour of those libraries, and concrete instantiations serve as
witnesses and counterexamples.
-/

namespace RustlsSpiffe

/-- A DER certificate, as carried around by the code: an opaque byte string
(`CertificateDer::from_slice(authority.content())` in the source merely wraps
the bytes without parsing). -/
structure Certificate where
  content : List Nat
deriving DecidableEq, Repr

/-- A SPIFFE trust domain, compared by value (the spiffe crate validates the
string at construction; here it is an opaque name). -/
abbrev TrustDomain := String

/-- An X.509 bundle: the collection of authority certificates of one trust
domain (`X509Bundle::authorities` in the spiffe crate). -/
structure X509Bundle where
  authorities : List Certificate
deriving DecidableEq, Repr

/-- A bundle set: a map from trust domain to bundle, as delivered in one
identity-context snapshot (spiffe crate `X509BundleSet`). -/
structure X509BundleSet where
  bundles : List (TrustDomain × X509Bundle)
deriving DecidableEq, Repr

/-- Lookup of a trust domain's bundle (`X509BundleSet::get_bundle`). -/
def X509BundleSet.get_bundle (s : X509BundleSet) (d : TrustDomain) :
    Option X509Bundle :=
  (s.bundles.find? (fun p => p.1 == d)).map Prod.snd

/-- An X509-SVID: a leaf certificate chain, its private key bytes and the
asserted spiffe id (spiffe crate `X509Svid`). -/
structure X509Svid where
  spiffe_id : String
  cert_chain : List Certificate
  private_key : List Nat
deriving DecidableEq, Repr

/-- An identity-context snapshot (spiffe crate `X509Context`): the SVID list
and the bundle set. -/
structure X509Context where
  svids : List X509Svid
  bundle_set : X509BundleSet
deriving DecidableEq, Repr

/-- The default SVID of a snapshot is its first SVID
(spiffe crate `X509Context::default_svid`). -/
def X509Context.default_svid (c : X509Context) : Option X509Svid :=
  c.svids.head?

/-- A rustls root certificate store: the list of anchors added so far, in
insertion order. -/
structure RootCertStore where
  roots : List Certificate
deriving DecidableEq, Repr

/-- An empty root store (`RootCertStore::empty`). -/
def RootCertStore.empty : RootCertStore := ⟨[]⟩

/-- Modelled from the spec: rustls `RootCertStore::add_parsable_certificates`
is external library code; per the spec, certificates that fail to parse are
individually skipped and counted while parseable ones are added and counted
separately.  Which byte strings parse is the external library's business, so
it enters as the predicate `parsable`.  Returns the updated store together
with the (added, ignored) counts. -/
def RootCertStore.add_parsable_certificates (s : RootCertStore)
    (parsable : Certificate → Bool) (certs : List Certificate) :
    RootCertStore × Nat × Nat :=
  certs.foldl
    (fun acc c =>
      if parsable c then (⟨acc.1.roots ++ [c]⟩, acc.2.1 + 1, acc.2.2)
      else (acc.1, acc.2.1, acc.2.2 + 1))
    (s, 0, 0)

/-- Emptiness test on the store (`RootCertStore::is_empty`). -/
def RootCertStore.is_empty (s : RootCertStore) : Bool := s.roots.isEmpty

/-- The certificate sequence that `build_root_store` feeds into the store:
for each configured trust domain in iteration order, the bundle found in the
snapshot (domains with no bundle are skipped by `filter_map`), flattened to
the authority certificates (`flat_map`). -/
def collect_root_certs (trust_domains : List TrustDomain)
    (bundles : X509BundleSet) : List Certificate :=
  ((trust_domains.filterMap bundles.get_bundle).map
    X509Bundle.authorities).flatten

/-- The root-store construction with its diagnostic counts, exactly as in
`TrustDomainStore::build_root_store` (and its verbatim copies in
`SpiffeClientConfigStream` and `SpiffeServerConfigStream`): start from the
empty store and add the parseable certificates among the collected ones. -/
def build_root_store_counted (trust_domains : List TrustDomain)
    (parsable : Certificate → Bool) (bundles : X509BundleSet) :
    RootCertStore × Nat × Nat :=
  RootCertStore.empty.add_parsable_certificates parsable
    (collect_root_certs trust_domains bundles)

/-- The store returned by `build_root_store`: the counts are logged at debug
level and dropped, only the store is returned. -/
def build_root_store (trust_domains : List TrustDomain)
    (parsable : Certificate → Bool) (bundles : X509BundleSet) :
    RootCertStore :=
  (build_root_store_counted trust_domains parsable bundles).1

/-- An opaque upstream (Workload API / gRPC) error cause. -/
abbrev GrpcClientError := Nat

/-- An opaque rustls config-assembly rejection cause. -/
abbrev RustlsCause := Nat

/-- An opaque webpki verifier-builder failure cause. -/
abbrev VerifierCause := Nat

/-- The error type of the client config stream
(rustls-config-stream `ClientConfigStreamError`), with the variants the
source constructs. -/
inductive ClientConfigStreamError where
  | StreamBuilderError (cause : GrpcClientError)
  | StreamError (cause : GrpcClientError)
  | MissingRoots
  | MissingCertifiedKey
  | RustlsError (cause : RustlsCause)
deriving DecidableEq, Repr

/-- The error type of the server config stream
(rustls-config-stream `ServerConfigStreamError`), with the variants the
source constructs. -/
inductive ServerConfigStreamError where
  | StreamBuilderError (cause : GrpcClientError)
  | StreamError (cause : GrpcClientError)
  | MissingRoots
  | MissingCertifiedKey
  | VerifierBuilderError (cause : VerifierCause)
  | RustlsError (cause : RustlsCause)
deriving DecidableEq, Repr

/-- A rustls private key value with its declared encoding.  The source always
wraps the SVID's raw key bytes as
`PrivateKeyDer::from(PrivatePkcs8KeyDer::from(bytes))`, i.e. the `Pkcs8`
variant, whatever the bytes happen to be. -/
inductive PrivateKeyDer where
  | Pkcs1 (bytes : List Nat)
  | Sec1 (bytes : List Nat)
  | Pkcs8 (bytes : List Nat)
deriving DecidableEq, Repr

/-- A rustls client configuration as assembled by the source: the root store
installed via `with_root_certificates` plus the own chain and key installed
via `with_client_auth_cert`. -/
structure ClientConfig where
  roots : RootCertStore
  cert_chain : List Certificate
  key : PrivateKeyDer
deriving DecidableEq, Repr

/-- A webpki client-certificate verifier, wrapping the root store it was
built from (`WebPkiClientVerifier::builder(roots).build()`). -/
structure WebPkiClientVerifier where
  roots : RootCertStore
deriving DecidableEq, Repr

/-- A rustls server configuration as assembled by the source: the client
certificate verifier installed via `with_client_cert_verifier` plus the own
chain and key installed via `with_single_cert`. -/
structure ServerConfig where
  verifier : WebPkiClientVerifier
  cert_chain : List Certificate
  key : PrivateKeyDer
deriving DecidableEq, Repr

/-- Modelled from the spec: the behaviour of the external TLS libraries,
which are not part of this repository.  `parsable` says which certificate
byte strings rustls accepts as anchors; `client_accept` is the
accept/reject decision of `ClientConfig::builder().with_client_auth_cert`;
`verifier_build` is the accept/reject decision of
`WebPkiClientVerifier::builder(roots).build()` (per the spec it may fail
even on an anchor set that passes the emptiness check); `server_accept` is
the accept/reject decision of `ServerConfig::builder().with_single_cert`.
All theorems below are quantified over this record, so they hold for every
behaviour of the external libraries. -/
structure ExternalTls where
  parsable : Certificate → Bool
  client_accept : List Certificate → PrivateKeyDer → Except RustlsCause Unit
  verifier_build : RootCertStore → Except VerifierCause Unit
  server_accept : List Certificate → PrivateKeyDer → Except RustlsCause Unit

/-- The client config builder, `SpiffeClientConfigStream::build_client_config`:
build the root store, fail with `MissingRoots` if it is empty, select the
default SVID failing with `MissingCertifiedKey` if absent, then assemble the
configuration, mapping a rustls rejection to `RustlsError`. -/
def build_client_config (trust_domains : List TrustDomain)
    (ext : ExternalTls) (x509_context : X509Context) :
    Except ClientConfigStreamError ClientConfig :=
  let roots := build_root_store trust_domains ext.parsable
    x509_context.bundle_set
  if roots.is_empty then Except.error ClientConfigStreamError.MissingRoots
  else
    match x509_context.default_svid with
    | none => Except.error ClientConfigStreamError.MissingCertifiedKey
    | some svid =>
      let chain := svid.cert_chain
      let key := PrivateKeyDer.Pkcs8 svid.private_key
      match ext.client_accept chain key with
      | Except.error e =>
          Except.error (ClientConfigStreamError.RustlsError e)
      | Except.ok _ => Except.ok ⟨roots, chain, key⟩

/-- The server config builder, `SpiffeServerConfigStream::build_server_config`:
build the root store, fail with `MissingRoots` if it is empty, build the
client-certificate verifier (mapping its failure to `VerifierBuilderError`),
then select the default SVID failing with `MissingCertifiedKey` if absent,
then assemble the configuration, mapping a rustls rejection to
`RustlsError`.  Note the verifier is built before the default SVID is
examined, as in the source. -/
def build_server_config (trust_domains : List TrustDomain)
    (ext : ExternalTls) (x509_context : X509Context) :
    Except ServerConfigStreamError ServerConfig :=
  let roots := build_root_store trust_domains ext.parsable
    x509_context.bundle_set
  if roots.is_empty then Except.error ServerConfigStreamError.MissingRoots
  else
    match ext.verifier_build roots with
    | Except.error e =>
        Except.error (ServerConfigStreamError.VerifierBuilderError e)
    | Except.ok _ =>
      match x509_context.default_svid with
      | none => Except.error ServerConfigStreamError.MissingCertifiedKey
      | some svid =>
        let chain := svid.cert_chain
        let key := PrivateKeyDer.Pkcs8 svid.private_key
        match ext.server_accept chain key with
        | Except.error e =>
            Except.error (ServerConfigStreamError.RustlsError e)
        | Except.ok _ => Except.ok ⟨⟨roots⟩, chain, key⟩

/-- The client config stream's own state: the configured trust domains (the
inner upstream stream is supplied to `poll_next` as an argument below). -/
structure SpiffeClientConfigStream where
  trust_domains : List TrustDomain
deriving DecidableEq, Repr

/-- The server config stream's own state. -/
structure SpiffeServerConfigStream where
  trust_domains : List TrustDomain
deriving DecidableEq, Repr

/-- The builder for a client config stream: it records the trust domains
passed at construction (`SpiffeClientConfigStreamBuilder::new`). -/
structure SpiffeClientConfigStreamBuilder where
  trust_domains : List TrustDomain
deriving DecidableEq, Repr

/-- `SpiffeClientConfigStream::builder`: constructing a builder simply
stores the trust-domain list; no validation rejects any list. -/
def SpiffeClientConfigStream.builder (trust_domains : List TrustDomain) :
    SpiffeClientConfigStreamBuilder :=
  ⟨trust_domains⟩

/-- The builder for a server config stream
(`SpiffeServerConfigStreamBuilder::new`). -/
structure SpiffeServerConfigStreamBuilder where
  trust_domains : List TrustDomain
deriving DecidableEq, Repr

/-- `SpiffeServerConfigStream::builder`. -/
def SpiffeServerConfigStream.builder (trust_domains : List TrustDomain) :
    SpiffeServerConfigStreamBuilder :=
  ⟨trust_domains⟩

/-- The result of one poll of an asynchronous stream. -/
inductive Poll (α : Type) where
  | pending
  | ready (val : α)
deriving DecidableEq, Repr

/-- One step of `<SpiffeClientConfigStream as Stream>::poll_next`, as a
function of what the inner upstream stream's poll returned: pending is
passed through, upstream exhaustion ends the stream, an upstream error is
re-emitted wrapped in `StreamError`, and an upstream snapshot is mapped
through `build_client_config`. -/
def client_poll_next (s : SpiffeClientConfigStream) (ext : ExternalTls)
    (upstream : Poll (Option (Except GrpcClientError X509Context))) :
    Poll (Option (Except ClientConfigStreamError ClientConfig)) :=
  match upstream with
  | Poll.pending => Poll.pending
  | Poll.ready none => Poll.ready none
  | Poll.ready (some (Except.error err)) =>
      Poll.ready (some (Except.error
        (ClientConfigStreamError.StreamError err)))
  | Poll.ready (some (Except.ok x509_context)) =>
      Poll.ready (some (build_client_config s.trust_domains ext
        x509_context))

/-- One step of `<SpiffeServerConfigStream as Stream>::poll_next`. -/
def server_poll_next (s : SpiffeServerConfigStream) (ext : ExternalTls)
    (upstream : Poll (Option (Except GrpcClientError X509Context))) :
    Poll (Option (Except ServerConfigStreamError ServerConfig)) :=
  match upstream with
  | Poll.pending => Poll.pending
  | Poll.ready none => Poll.ready none
  | Poll.ready (some (Except.error err)) =>
      Poll.ready (some (Except.error
        (ServerConfigStreamError.StreamError err)))
  | Poll.ready (some (Except.ok x509_context)) =>
      Poll.ready (some (build_server_config s.trust_domains ext
        x509_context))

/-- Driving the client stream over a finite upstream element sequence:
each upstream element is offered to `poll_next` as a ready item and the
yielded element is collected; a ready-none answer ends the run. -/
def run_client_stream (s : SpiffeClientConfigStream) (ext : ExternalTls) :
    List (Except GrpcClientError X509Context) →
    List (Except ClientConfigStreamError ClientConfig)
  | [] => []
  | u :: us =>
    match client_poll_next s ext (Poll.ready (some u)) with
    | Poll.ready (some out) => out :: run_client_stream s ext us
    | Poll.ready none => []
    | Poll.pending => run_client_stream s ext us

/-- Driving the server stream over a finite upstream element sequence. -/
def run_server_stream (s : SpiffeServerConfigStream) (ext : ExternalTls) :
    List (Except GrpcClientError X509Context) →
    List (Except ServerConfigStreamError ServerConfig)
  | [] => []
  | u :: us =>
    match server_poll_next s ext (Poll.ready (some u)) with
    | Poll.ready (some out) => out :: run_server_stream s ext us
    | Poll.ready none => []
    | Poll.pending => run_server_stream s ext us

/-- A general name from a certificate's subject-alternative-name extension
(x509-parser `GeneralName`): either a URI-form name or any other form. -/
inductive GeneralName where
  | URI (uri : String)
  | Other
deriving DecidableEq, Repr

/-- The view of a parsed certificate that `extract_spiffe_id` consumes:
the outcome of `cert.subject_alternative_name()`, which is a result (the
extension may be malformed) of an option (the extension may be absent) of
the list of general names in listed order. -/
structure ParsedCertificate where
  subject_alternative_name : Except Unit (Option (List GeneralName))
deriving Repr

/-- A decoded SPIFFE identifier (spiffe crate `SpiffeId`). -/
structure SpiffeId where
  uri : String
deriving DecidableEq, Repr

/-- Modelled from the spec: the external x509-parser and spiffe crates.
`parse_x509_certificate` is DER parsing (may fail, giving none);
`spiffe_id_try_from` is `SpiffeId::try_from` on a URI string (may fail,
giving none).  Theorems are quantified over this record. -/
structure ExternalX509 where
  parse_x509_certificate : Certificate → Option ParsedCertificate
  spiffe_id_try_from : String → Option SpiffeId

/-- The peer-facing view of an established TLS session that
`extract_leaf_cert` consumes: `peer_certificates()` is none when the
session has no peer certificates. -/
structure TlsSession where
  peer_certificates : Option (List Certificate)
deriving DecidableEq, Repr

/-- `extract_leaf_cert`: the first entry of the peer's certificate chain,
or none when the session has no peer certificates or the chain is empty. -/
def extract_leaf_cert (stream : TlsSession) : Option Certificate :=
  match stream.peer_certificates with
  | none => none
  | some peer_certificates => peer_certificates.head?

/-- The closure passed to `find_map` in `extract_spiffe_id`: keep a URI-form
general name, skip any other form. -/
def uri_of_general_name (gn : GeneralName) : Option String :=
  match gn with
  | GeneralName.URI uri => some uri
  | GeneralName.Other => none

/-- `extract_spiffe_id`: none when no certificate is given, when it fails to
parse, when the subject-alternative-name extension is malformed or absent,
or when the extension lists no URI-form name; otherwise the FIRST URI-form
name is taken (by `find_map`) and `SpiffeId::try_from` is applied to it —
if that one URI fails to parse the result is none, later URI names are not
consulted. -/
def extract_spiffe_id (ext : ExternalX509) (leaf : Option Certificate) :
    Option SpiffeId :=
  match leaf with
  | none => none
  | some l =>
    match ext.parse_x509_certificate l with
    | none => none
    | some cert =>
      match cert.subject_alternative_name with
      | Except.error _ => none
      | Except.ok none => none
      | Except.ok (some general_names) =>
        match general_names.findSome? uri_of_general_name with
        | none => none
        | some uri => ext.spiffe_id_try_from uri

/-- Specification-side reading of the extraction (from the spec's words,
for comparison with the source's `extract_spiffe_id`): return the first
URI-form name, in listed order, that parses as a valid scoped identifier,
skipping URI names that fail to parse. -/
def spec_first_valid_scoped_id (tryFrom : String → Option SpiffeId)
    (general_names : List GeneralName) : Option SpiffeId :=
  general_names.findSome? (fun gn =>
    match gn with
    | GeneralName.URI uri => tryFrom uri
    | GeneralName.Other => none)

/-- Unfolding of the accumulating fold inside `add_parsable_certificates`:
from any starting store and counts, it appends exactly the parseable
certificates in order and counts parseable and unparseable ones. -/
theorem foldl_add_parsable_spec (p : Certificate → Bool)
    (certs : List Certificate) :
    ∀ (s : RootCertStore) (a i : Nat),
    certs.foldl
      (fun acc c =>
        if p c then (⟨acc.1.roots ++ [c]⟩, acc.2.1 + 1, acc.2.2)
        else (acc.1, acc.2.1, acc.2.2 + 1))
      (s, a, i) =
    (⟨s.roots ++ certs.filter p⟩, a + certs.countP p,
      i + certs.countP (fun c => !p c)) := by
  induction certs with
  | nil => intro s a i; simp
  | cons c cs ih =>
    intro s a i
    by_cases h : p c
    · simp [List.foldl_cons, h, ih, List.countP_cons]
      omega
    · simp [List.foldl_cons, h, ih, List.countP_cons]
      omega

/-- `add_parsable_certificates` appends the parseable certificates in order
and returns the two counts. -/
theorem add_parsable_certificates_spec (s : RootCertStore)
    (p : Certificate → Bool) (certs : List Certificate) :
    s.add_parsable_certificates p certs =
      (⟨s.roots ++ certs.filter p⟩, certs.countP p,
        certs.countP (fun c => !p c)) := by
  unfold RootCertStore.add_parsable_certificates
  simpa using foldl_add_parsable_spec p certs s 0 0

/-- The root-store construction keeps exactly the parseable certificates
among the collected ones, in collection order, and its counts are the
number of parseable and unparseable collected certificates. -/
theorem build_root_store_counted_spec (td : List TrustDomain)
    (p : Certificate → Bool) (b : X509BundleSet) :
    build_root_store_counted td p b =
      (⟨(collect_root_certs td b).filter p⟩,
        (collect_root_certs td b).countP p,
        (collect_root_certs td b).countP (fun c => !p c)) := by
  unfold build_root_store_counted
  simp [add_parsable_certificates_spec, RootCertStore.empty]

/-- The anchors of the returned store are the parseable collected
certificates in order. -/
theorem build_root_store_roots (td : List TrustDomain)
    (p : Certificate → Bool) (b : X509BundleSet) :
    (build_root_store td p b).roots =
      (collect_root_certs td b).filter p := by
  unfold build_root_store
  simp [build_root_store_counted_spec]

/-- Membership in the collected certificate list means membership in the
authorities of a bundle looked up for some configured trust domain. -/
theorem mem_collect_root_certs {td : List TrustDomain} {b : X509BundleSet}
    {c : Certificate} (hc : c ∈ collect_root_certs td b) :
    ∃ d bundle, d ∈ td ∧ b.get_bundle d = some bundle ∧
      c ∈ bundle.authorities := by
  unfold collect_root_certs at hc
  rw [List.mem_flatten] at hc
  obtain ⟨l, hl, hcl⟩ := hc
  rw [List.mem_map] at hl
  obtain ⟨bundle, hbundle, rfl⟩ := hl
  rw [List.mem_filterMap] at hbundle
  obtain ⟨d, hd, hget⟩ := hbundle
  exact ⟨d, bundle, hd, hget, hcl⟩

/-- C1: For every list of configured trust domains D and every bundle set
B, the root store produced by build_root_store(D, B) contains only
certificates taken from bundles whose trust domain is a member of D; no
certificate originating from a bundle of a domain outside D is ever added
to the store. -/
theorem root_store_only_configured_domains
    (td : List TrustDomain) (p : Certificate → Bool) (b : X509BundleSet)
    (c : Certificate) (hc : c ∈ (build_root_store td p b).roots) :
    ∃ d bundle, d ∈ td ∧ b.get_bundle d = some bundle ∧
      c ∈ bundle.authorities := by
  rw [build_root_store_roots] at hc
  exact mem_collect_root_certs (List.mem_of_mem_filter hc)

/-- Witness for C1: a concrete store with one anchor, whose membership
traces back to the bundle of the single configured domain. -/
theorem root_store_only_configured_domains_witness :
    ∃ d bundle, d ∈ ["example.org"] ∧
      (X509BundleSet.mk [("example.org", ⟨[⟨[1, 2]⟩]⟩)]).get_bundle d =
        some bundle ∧ (⟨[1, 2]⟩ : Certificate) ∈ bundle.authorities :=
  root_store_only_configured_domains ["example.org"] (fun _ => true)
    (X509BundleSet.mk [("example.org", ⟨[⟨[1, 2]⟩]⟩)]) ⟨[1, 2]⟩
    (by decide)

/-- When the built root store has no anchors, the client builder fails with
MissingRoots. -/
theorem build_client_config_missing_roots {td : List TrustDomain}
    {ext : ExternalTls} {ctx : X509Context}
    (h : (build_root_store td ext.parsable ctx.bundle_set).roots = []) :
    build_client_config td ext ctx =
      Except.error ClientConfigStreamError.MissingRoots := by
  unfold build_client_config
  simp [RootCertStore.is_empty, h]

/-- When the built root store has no anchors, the server builder fails with
MissingRoots. -/
theorem build_server_config_missing_roots {td : List TrustDomain}
    {ext : ExternalTls} {ctx : X509Context}
    (h : (build_root_store td ext.parsable ctx.bundle_set).roots = []) :
    build_server_config td ext ctx =
      Except.error ServerConfigStreamError.MissingRoots := by
  unfold build_server_config
  simp [RootCertStore.is_empty, h]

/-- A successful client build carries the non-empty root store it checked. -/
theorem build_client_config_ok_roots {td : List TrustDomain}
    {ext : ExternalTls} {ctx : X509Context} {cfg : ClientConfig}
    (h : build_client_config td ext ctx = Except.ok cfg) :
    cfg.roots = build_root_store td ext.parsable ctx.bundle_set ∧
      cfg.roots.is_empty = false := by
  by_cases hemp :
      (build_root_store td ext.parsable ctx.bundle_set).is_empty = true
  · simp [build_client_config, hemp] at h
  · cases hsvid : ctx.default_svid with
    | none => simp [build_client_config, hemp, hsvid] at h
    | some svid =>
      cases hacc : ext.client_accept svid.cert_chain
          (PrivateKeyDer.Pkcs8 svid.private_key) with
      | error e => simp [build_client_config, hemp, hsvid, hacc] at h
      | ok u =>
        simp [build_client_config, hemp, hsvid, hacc] at h
        rw [← h]
        exact ⟨rfl, by simpa using hemp⟩

/-- A successful server build carries a verifier wrapping the non-empty
root store it checked. -/
theorem build_server_config_ok_roots {td : List TrustDomain}
    {ext : ExternalTls} {ctx : X509Context} {cfg : ServerConfig}
    (h : build_server_config td ext ctx = Except.ok cfg) :
    cfg.verifier.roots = build_root_store td ext.parsable ctx.bundle_set ∧
      cfg.verifier.roots.is_empty = false := by
  by_cases hemp :
      (build_root_store td ext.parsable ctx.bundle_set).is_empty = true
  · simp [build_server_config, hemp] at h
  · cases hver : ext.verifier_build
        (build_root_store td ext.parsable ctx.bundle_set) with
    | error e => simp [build_server_config, hemp, hver] at h
    | ok v =>
      cases hsvid : ctx.default_svid with
      | none => simp [build_server_config, hemp, hver, hsvid] at h
      | some svid =>
        cases hacc : ext.server_accept svid.cert_chain
            (PrivateKeyDer.Pkcs8 svid.private_key) with
        | error e => simp [build_server_config, hemp, hver, hsvid, hacc] at h
        | ok u =>
          simp [build_server_config, hemp, hver, hsvid, hacc] at h
          rw [← h]
          exact ⟨rfl, by simpa using hemp⟩

/-- C8: build_root_store never fails for any input: authority certificates
of the found bundles are processed in trust-domain iteration order,
certificates that fail to parse are individually skipped while parseable
ones are added, and the two resulting counts (added, ignored) are used only
for diagnostics — they never change control flow or the returned store,
which may legitimately be empty. -/
theorem root_store_total_counts_diagnostic_only :
    ∀ (td : List TrustDomain) (p : Certificate → Bool) (b : X509BundleSet),
    (build_root_store td p b).roots = (collect_root_certs td b).filter p ∧
    (build_root_store_counted td p b).2.1 =
      (collect_root_certs td b).countP p ∧
    (build_root_store_counted td p b).2.2 =
      (collect_root_certs td b).countP (fun c => !p c) ∧
    build_root_store td p b = (build_root_store_counted td p b).1 ∧
    (build_root_store td p ⟨[]⟩).roots = [] := by
  intro td p b
  refine ⟨build_root_store_roots td p b, ?_, ?_, rfl, ?_⟩
  · simp [build_root_store_counted_spec]
  · simp [build_root_store_counted_spec]
  · simp [build_root_store_roots, collect_root_certs, X509BundleSet.get_bundle]

/-- C9: Construction accepts an empty trust-domain list without error, and
for a stream built with an empty trust-domain list, build_root_store
returns an empty store for every bundle set, so build_client_config and
build_server_config return MissingRoots for every snapshot — such a
pipeline can never publish a configuration. -/
theorem empty_trust_domains_never_publish :
    ∀ (ext : ExternalTls) (p : Certificate → Bool) (b : X509BundleSet)
      (ctx : X509Context),
    (SpiffeClientConfigStream.builder []).trust_domains = [] ∧
    (SpiffeServerConfigStream.builder []).trust_domains = [] ∧
    (build_root_store [] p b).roots = [] ∧
    build_client_config [] ext ctx =
      Except.error ClientConfigStreamError.MissingRoots ∧
    build_server_config [] ext ctx =
      Except.error ServerConfigStreamError.MissingRoots := by
  intro ext p b ctx
  have hempty : ∀ (q : Certificate → Bool) (bs : X509BundleSet),
      (build_root_store [] q bs).roots = [] := by
    intro q bs
    simp [build_root_store_roots, collect_root_certs]
  exact ⟨rfl, rfl, hempty p b,
    build_client_config_missing_roots (hempty ext.parsable ctx.bundle_set),
    build_server_config_missing_roots (hempty ext.parsable ctx.bundle_set)⟩

/-- The element-wise mapping the client stream applies: an upstream error
becomes a StreamError element, an upstream snapshot becomes the result of
the client config builder. -/
def client_map_element (s : SpiffeClientConfigStream) (ext : ExternalTls)
    (u : Except GrpcClientError X509Context) :
    Except ClientConfigStreamError ClientConfig :=
  match u with
  | Except.error e =>
      Except.error (ClientConfigStreamError.StreamError e)
  | Except.ok x509_context =>
      build_client_config s.trust_domains ext x509_context

/-- The element-wise mapping the server stream applies. -/
def server_map_element (t : SpiffeServerConfigStream) (ext : ExternalTls)
    (u : Except GrpcClientError X509Context) :
    Except ServerConfigStreamError ServerConfig :=
  match u with
  | Except.error e =>
      Except.error (ServerConfigStreamError.StreamError e)
  | Except.ok x509_context =>
      build_server_config t.trust_domains ext x509_context

/-- Running the client stream over an upstream element list is exactly the
element-wise map: no buffering, reordering or coalescing. -/
theorem run_client_stream_eq_map (s : SpiffeClientConfigStream)
    (ext : ExternalTls) :
    ∀ us, run_client_stream s ext us = us.map (client_map_element s ext) := by
  intro us
  induction us with
  | nil => rfl
  | cons u tail ih =>
    cases u with
    | error e =>
        simp [run_client_stream, client_poll_next, client_map_element, ih]
    | ok ctx =>
        simp [run_client_stream, client_poll_next, client_map_element, ih]

/-- Running the server stream over an upstream element list is exactly the
element-wise map. -/
theorem run_server_stream_eq_map (t : SpiffeServerConfigStream)
    (ext : ExternalTls) :
    ∀ us, run_server_stream t ext us = us.map (server_map_element t ext) := by
  intro us
  induction us with
  | nil => rfl
  | cons u tail ih =>
    cases u with
    | error e =>
        simp [run_server_stream, server_poll_next, server_map_element, ih]
    | ok ctx =>
        simp [run_server_stream, server_poll_next, server_map_element, ih]

/-- C6: The stream mapping is order-preserving and 1:1: for every N, the
Nth element yielded by the config stream is determined exactly by the Nth
element of the upstream identity sequence (an upstream error maps to a
StreamError, an upstream snapshot maps to the result of the corresponding
config builder), with no buffering, reordering, or coalescing; and when the
upstream sequence is exhausted the config stream ends cleanly (yields
end-of-stream, not an error). -/
theorem stream_mapping_order_preserving :
    ∀ (s : SpiffeClientConfigStream) (t : SpiffeServerConfigStream)
      (ext : ExternalTls) (us : List (Except GrpcClientError X509Context))
      (n : Nat),
    run_client_stream s ext us = us.map (client_map_element s ext) ∧
    run_server_stream t ext us = us.map (server_map_element t ext) ∧
    (run_client_stream s ext us).length = us.length ∧
    (run_server_stream t ext us).length = us.length ∧
    (run_client_stream s ext us)[n]? =
      us[n]?.map (client_map_element s ext) ∧
    (run_server_stream t ext us)[n]? =
      us[n]?.map (server_map_element t ext) ∧
    client_poll_next s ext (Poll.ready none) = Poll.ready none ∧
    server_poll_next t ext (Poll.ready none) = Poll.ready none ∧
    client_poll_next s ext Poll.pending = Poll.pending ∧
    server_poll_next t ext Poll.pending = Poll.pending ∧
    run_client_stream s ext [] = [] ∧
    run_server_stream t ext [] = [] := by
  intro s t ext us n
  refine ⟨run_client_stream_eq_map s ext us, run_server_stream_eq_map t ext us,
    ?_, ?_, ?_, ?_, rfl, rfl, rfl, rfl, rfl, rfl⟩
  · simp [run_client_stream_eq_map]
  · simp [run_server_stream_eq_map]
  · simp [run_client_stream_eq_map, List.getElem?_map]
  · simp [run_server_stream_eq_map, List.getElem?_map]

/-- C5: An error element produced by the upstream identity sequence is
re-emitted by the config stream as exactly one StreamError element wrapping
the cause, is neither retried nor suppressed, and is element-local: the
stream does not terminate and the next upstream element is processed
normally afterward. -/
theorem upstream_error_passthrough :
    ∀ (s : SpiffeClientConfigStream) (t : SpiffeServerConfigStream)
      (ext : ExternalTls) (e : GrpcClientError)
      (us : List (Except GrpcClientError X509Context)),
    client_poll_next s ext (Poll.ready (some (Except.error e))) =
      Poll.ready (some (Except.error
        (ClientConfigStreamError.StreamError e))) ∧
    run_client_stream s ext (Except.error e :: us) =
      Except.error (ClientConfigStreamError.StreamError e) ::
        run_client_stream s ext us ∧
    server_poll_next t ext (Poll.ready (some (Except.error e))) =
      Poll.ready (some (Except.error
        (ServerConfigStreamError.StreamError e))) ∧
    run_server_stream t ext (Except.error e :: us) =
      Except.error (ServerConfigStreamError.StreamError e) ::
        run_server_stream t ext us := by
  intro s t ext e us
  exact ⟨rfl, rfl, rfl, rfl⟩

/-- C2: For every snapshot whose bundle set contains no bundle for any
configured trust domain (or whose matching bundles contribute zero
parseable anchors), both build_client_config and build_server_config fail
with MissingRoots; they never return a configuration whose root store is
empty. -/
theorem missing_roots_never_empty_config :
    (∀ (td : List TrustDomain) (ext : ExternalTls) (ctx : X509Context),
      ((∀ d ∈ td, ctx.bundle_set.get_bundle d = none) ∨
        (∀ c ∈ collect_root_certs td ctx.bundle_set,
          ext.parsable c = false)) →
      build_client_config td ext ctx =
        Except.error ClientConfigStreamError.MissingRoots ∧
      build_server_config td ext ctx =
        Except.error ServerConfigStreamError.MissingRoots) ∧
    (∀ (td : List TrustDomain) (ext : ExternalTls) (ctx : X509Context)
      (cfg : ClientConfig), build_client_config td ext ctx = Except.ok cfg →
      cfg.roots.is_empty = false) ∧
    (∀ (td : List TrustDomain) (ext : ExternalTls) (ctx : X509Context)
      (cfg : ServerConfig), build_server_config td ext ctx = Except.ok cfg →
      cfg.verifier.roots.is_empty = false) := by
  refine ⟨?_, ?_, ?_⟩
  · intro td ext ctx h
    have hroots : (build_root_store td ext.parsable ctx.bundle_set).roots
        = [] := by
      rw [build_root_store_roots]
      cases h with
      | inl hnone =>
        have hc : collect_root_certs td ctx.bundle_set = [] := by
          unfold collect_root_certs
          rw [List.filterMap_eq_nil_iff.mpr hnone]
          rfl
        rw [hc]
        rfl
      | inr hbad =>
        rw [List.filter_eq_nil_iff]
        intro c hc
        simp [hbad c hc]
    exact ⟨build_client_config_missing_roots hroots,
      build_server_config_missing_roots hroots⟩
  · intro td ext ctx cfg h
    exact (build_client_config_ok_roots h).2
  · intro td ext ctx cfg h
    exact (build_server_config_ok_roots h).2

/-- Witness for C2: a snapshot whose bundle set holds only a bundle for an
unconfigured domain makes both builders fail with MissingRoots; a fully
healthy snapshot yields configurations whose root stores are non-empty. -/
theorem missing_roots_never_empty_config_witness :
    (build_client_config ["example.org"]
        ⟨fun _ => true, fun _ _ => Except.ok (), fun _ => Except.ok (),
          fun _ _ => Except.ok ()⟩
        ⟨[], ⟨[("other.org", ⟨[⟨[1, 2]⟩]⟩)]⟩⟩ =
      Except.error ClientConfigStreamError.MissingRoots ∧
      build_server_config ["example.org"]
        ⟨fun _ => true, fun _ _ => Except.ok (), fun _ => Except.ok (),
          fun _ _ => Except.ok ()⟩
        ⟨[], ⟨[("other.org", ⟨[⟨[1, 2]⟩]⟩)]⟩⟩ =
      Except.error ServerConfigStreamError.MissingRoots) ∧
    (ClientConfig.mk ⟨[⟨[1, 2]⟩]⟩ [⟨[3]⟩]
      (PrivateKeyDer.Pkcs8 [4])).roots.is_empty = false ∧
    (ServerConfig.mk ⟨⟨[⟨[1, 2]⟩]⟩⟩ [⟨[3]⟩]
      (PrivateKeyDer.Pkcs8 [4])).verifier.roots.is_empty = false := by
  refine ⟨missing_roots_never_empty_config.1 ["example.org"] _ _
      (Or.inl ?_), ?_, ?_⟩
  · intro d hd
    simp at hd
    subst hd
    rfl
  · exact missing_roots_never_empty_config.2.1 ["example.org"]
      ⟨fun _ => true, fun _ _ => Except.ok (), fun _ => Except.ok (),
        fun _ _ => Except.ok ()⟩
      ⟨[⟨"spiffe://example.org/testservice", [⟨[3]⟩], [4]⟩],
        ⟨[("example.org", ⟨[⟨[1, 2]⟩]⟩)]⟩⟩
      (ClientConfig.mk ⟨[⟨[1, 2]⟩]⟩ [⟨[3]⟩] (PrivateKeyDer.Pkcs8 [4])) rfl
  · exact missing_roots_never_empty_config.2.2 ["example.org"]
      ⟨fun _ => true, fun _ _ => Except.ok (), fun _ => Except.ok (),
        fun _ _ => Except.ok ()⟩
      ⟨[⟨"spiffe://example.org/testservice", [⟨[3]⟩], [4]⟩],
        ⟨[("example.org", ⟨[⟨[1, 2]⟩]⟩)]⟩⟩
      (ServerConfig.mk ⟨⟨[⟨[1, 2]⟩]⟩⟩ [⟨[3]⟩] (PrivateKeyDer.Pkcs8 [4])) rfl

/-- Counterexample to C3: a snapshot whose root store is non-empty and
which carries no default identity, against a TLS library for which the
client-certificate verifier cannot be built from these anchors.  The server
builder returns VerifierBuilderError, not MissingCertifiedKey: the verifier
is constructed before the default identity is examined. -/
theorem server_identity_check_order_counterexample :
    build_server_config ["example.org"]
      ⟨fun _ => true, fun _ _ => Except.ok (), fun _ => Except.error 7,
        fun _ _ => Except.ok ()⟩
      ⟨[], ⟨[("example.org", ⟨[⟨[1, 2]⟩]⟩)]⟩⟩ =
      Except.error (ServerConfigStreamError.VerifierBuilderError 7) ∧
    (build_root_store ["example.org"] (fun _ => true)
      ⟨[("example.org", ⟨[⟨[1, 2]⟩]⟩)]⟩).is_empty = false ∧
    (X509Context.mk []
      ⟨[("example.org", ⟨[⟨[1, 2]⟩]⟩)]⟩).default_svid = none ∧
    ServerConfigStreamError.VerifierBuilderError 7 ≠
      ServerConfigStreamError.MissingCertifiedKey := by
  refine ⟨rfl, rfl, rfl, by decide⟩

/-- C3 as amended: the server checks the empty root store first, then
constructs the client-certificate verifier, and only then checks for the
default identity: for every snapshot whose root store is non-empty and
whose verifier construction succeeds but which carries no default leaf
identity, build_server_config fails with MissingCertifiedKey; when verifier
construction fails, VerifierBuilderError is returned even if the default
identity is also missing. -/
theorem server_verifier_then_identity_order :
    ∀ (td : List TrustDomain) (ext : ExternalTls) (ctx : X509Context),
    (build_root_store td ext.parsable ctx.bundle_set).is_empty = false →
    ((ext.verifier_build (build_root_store td ext.parsable ctx.bundle_set) =
        Except.ok () → ctx.default_svid = none →
      build_server_config td ext ctx =
        Except.error ServerConfigStreamError.MissingCertifiedKey) ∧
     (∀ e, ext.verifier_build
        (build_root_store td ext.parsable ctx.bundle_set) =
          Except.error e →
      build_server_config td ext ctx =
        Except.error (ServerConfigStreamError.VerifierBuilderError e))) := by
  intro td ext ctx hne
  constructor
  · intro hver hsvid
    simp [build_server_config, hne, hver, hsvid]
  · intro e hver
    simp [build_server_config, hne, hver]

/-- Witness for the amended C3: with all-accepting external behaviour, a
snapshot with one good anchor and no SVID makes the server builder fail
with MissingCertifiedKey. -/
theorem server_verifier_then_identity_order_witness :
    build_server_config ["example.org"]
      ⟨fun _ => true, fun _ _ => Except.ok (), fun _ => Except.ok (),
        fun _ _ => Except.ok ()⟩
      ⟨[], ⟨[("example.org", ⟨[⟨[1, 2]⟩]⟩)]⟩⟩ =
      Except.error ServerConfigStreamError.MissingCertifiedKey :=
  (server_verifier_then_identity_order ["example.org"]
    ⟨fun _ => true, fun _ _ => Except.ok (), fun _ => Except.ok (),
      fun _ _ => Except.ok ()⟩
    ⟨[], ⟨[("example.org", ⟨[⟨[1, 2]⟩]⟩)]⟩⟩ rfl).1 rfl rfl

/-- Counterexample to C4: a certificate whose extension lists two URI-form
names, the first of which does not parse as a scoped identifier while the
second does.  The source's extract_spiffe_id takes only the FIRST URI name
and returns none, whereas the claimed behaviour (first URI, in listed
order, that parses — skipping failing ones) would return the second. -/
theorem first_uri_skip_counterexample :
    extract_spiffe_id
      ⟨fun _ => some ⟨Except.ok (some [GeneralName.URI "bad",
          GeneralName.URI "spiffe://example.org/testservice"])⟩,
        fun u => if u = "spiffe://example.org/testservice"
          then some ⟨u⟩ else none⟩
      (some ⟨[9]⟩) = none ∧
    spec_first_valid_scoped_id
      (fun u => if u = "spiffe://example.org/testservice"
        then some ⟨u⟩ else none)
      [GeneralName.URI "bad",
        GeneralName.URI "spiffe://example.org/testservice"] =
      some ⟨"spiffe://example.org/testservice"⟩ := by
  constructor
  · rfl
  · rfl

/-- C4 as amended: extract_spiffe_id considers only the FIRST URI-form name
of the extension: general names of other forms before it are skipped, the
first URI name's parse result is returned as is, and when that first URI
name fails to parse as a scoped identifier the result is none — later URI
names are never consulted. -/
theorem first_uri_determines_result :
    ∀ (ext : ExternalX509) (l : Certificate) (cert : ParsedCertificate)
      (pre post : List GeneralName) (u : String),
    ext.parse_x509_certificate l = some cert →
    cert.subject_alternative_name =
      Except.ok (some (pre ++ GeneralName.URI u :: post)) →
    (∀ gn ∈ pre, uri_of_general_name gn = none) →
    extract_spiffe_id ext (some l) = ext.spiffe_id_try_from u := by
  intro ext l cert pre post u hparse hsan hpre
  have hpre2 : pre.findSome? uri_of_general_name = none := by
    rw [List.findSome?_eq_none_iff]
    exact hpre
  have hfind : (pre ++ GeneralName.URI u :: post).findSome?
      uri_of_general_name = some u := by
    rw [List.findSome?_append, hpre2]
    rfl
  simp [extract_spiffe_id, hparse, hsan, hfind]

/-- Witness for the amended C4: a certificate whose extension lists a
non-URI name followed by one URI name; the URI name's parse result is
returned. -/
theorem first_uri_determines_result_witness :
    extract_spiffe_id
      ⟨fun _ => some ⟨Except.ok (some [GeneralName.Other,
          GeneralName.URI "spiffe://example.org/testservice"])⟩,
        fun u => if u = "spiffe://example.org/testservice"
          then some ⟨u⟩ else none⟩
      (some ⟨[9]⟩) =
      (if "spiffe://example.org/testservice" =
          "spiffe://example.org/testservice"
        then some (SpiffeId.mk "spiffe://example.org/testservice")
        else none) :=
  first_uri_determines_result
    ⟨fun _ => some ⟨Except.ok (some [GeneralName.Other,
        GeneralName.URI "spiffe://example.org/testservice"])⟩,
      fun u => if u = "spiffe://example.org/testservice"
        then some ⟨u⟩ else none⟩
    ⟨[9]⟩
    ⟨Except.ok (some [GeneralName.Other,
      GeneralName.URI "spiffe://example.org/testservice"])⟩
    [GeneralName.Other] [] "spiffe://example.org/testservice"
    rfl rfl (by decide)

/-- C7: Both peer-identity operations are total and report absence as no
value: extract_leaf_cert returns the first entry of the peer's verified
certificate chain and returns none when the session has no peer
certificates; extract_spiffe_id returns none when given none, when the
certificate bytes fail to parse, when the certificate has no
subject-alternative-name extension, or when no URI-form name yields a
valid scoped identifier — neither operation panics or returns an error
value. -/
theorem peer_identity_absence_as_none :
    (∀ s : TlsSession, s.peer_certificates = none →
      extract_leaf_cert s = none) ∧
    (∀ (s : TlsSession) (c : Certificate) (rest : List Certificate),
      s.peer_certificates = some (c :: rest) →
      extract_leaf_cert s = some c) ∧
    (∀ ext : ExternalX509, extract_spiffe_id ext none = none) ∧
    (∀ (ext : ExternalX509) (l : Certificate),
      ext.parse_x509_certificate l = none →
      extract_spiffe_id ext (some l) = none) ∧
    (∀ (ext : ExternalX509) (l : Certificate) (cert : ParsedCertificate),
      ext.parse_x509_certificate l = some cert →
      (cert.subject_alternative_name = Except.error () ∨
        cert.subject_alternative_name = Except.ok none) →
      extract_spiffe_id ext (some l) = none) ∧
    (∀ (ext : ExternalX509) (l : Certificate) (cert : ParsedCertificate)
      (names : List GeneralName),
      ext.parse_x509_certificate l = some cert →
      cert.subject_alternative_name = Except.ok (some names) →
      (∀ u, GeneralName.URI u ∈ names → ext.spiffe_id_try_from u = none) →
      extract_spiffe_id ext (some l) = none) := by
  refine ⟨?_, ?_, ?_, ?_, ?_, ?_⟩
  · intro s h
    simp [extract_leaf_cert, h]
  · intro s c rest h
    simp [extract_leaf_cert, h]
  · intro ext
    rfl
  · intro ext l h
    simp [extract_spiffe_id, h]
  · intro ext l cert hparse hsan
    cases hsan with
    | inl h => simp [extract_spiffe_id, hparse, h]
    | inr h => simp [extract_spiffe_id, hparse, h]
  · intro ext l cert names hparse hsan hnone
    cases hfind : names.findSome? uri_of_general_name with
    | none => simp [extract_spiffe_id, hparse, hsan, hfind]
    | some uri =>
      obtain ⟨gn, hgn, hu⟩ := List.exists_of_findSome?_eq_some hfind
      cases gn with
      | URI v =>
        simp [uri_of_general_name] at hu
        subst hu
        simp [extract_spiffe_id, hparse, hsan, hfind]
        exact hnone _ hgn
      | Other => simp [uri_of_general_name] at hu

/-- Witness for C7: a session with no peer certificates yields no leaf, a
one-certificate chain yields its first entry, and a certificate whose only
URI name fails spiffe-id parsing yields no identifier. -/
theorem peer_identity_absence_as_none_witness :
    extract_leaf_cert ⟨none⟩ = none ∧
    extract_leaf_cert ⟨some [⟨[5]⟩, ⟨[6]⟩]⟩ = some ⟨[5]⟩ ∧
    extract_spiffe_id ⟨fun _ => none, fun _ => none⟩ none = none ∧
    extract_spiffe_id ⟨fun _ => none, fun _ => none⟩ (some ⟨[9]⟩) = none ∧
    extract_spiffe_id
      ⟨fun _ => some ⟨Except.ok none⟩, fun _ => none⟩
      (some ⟨[9]⟩) = none ∧
    extract_spiffe_id
      ⟨fun _ => some ⟨Except.ok (some [GeneralName.URI "bad"])⟩,
        fun _ => none⟩
      (some ⟨[9]⟩) = none := by
  refine ⟨peer_identity_absence_as_none.1 ⟨none⟩ rfl,
    peer_identity_absence_as_none.2.1 ⟨some [⟨[5]⟩, ⟨[6]⟩]⟩ ⟨[5]⟩ [⟨[6]⟩]
      rfl,
    peer_identity_absence_as_none.2.2.1 ⟨fun _ => none, fun _ => none⟩,
    peer_identity_absence_as_none.2.2.2.1 ⟨fun _ => none, fun _ => none⟩
      ⟨[9]⟩ rfl,
    peer_identity_absence_as_none.2.2.2.2.1
      ⟨fun _ => some ⟨Except.ok none⟩, fun _ => none⟩ ⟨[9]⟩
      ⟨Except.ok none⟩ rfl (Or.inr rfl),
    peer_identity_absence_as_none.2.2.2.2.2
      ⟨fun _ => some ⟨Except.ok (some [GeneralName.URI "bad"])⟩,
        fun _ => none⟩ ⟨[9]⟩
      ⟨Except.ok (some [GeneralName.URI "bad"])⟩ [GeneralName.URI "bad"]
      rfl rfl (fun u _ => rfl)⟩

/-- C10: Both config builders always interpret the default SVID's
private-key bytes as a PKCS#8-encoded key, without inspecting the
encoding: for every snapshot whose default identity's key is in any other
encoding, the TLS assembly step rejects the material and the builder
returns the TLS-rejection error (RustlsError) rather than panicking or
succeeding. -/
theorem key_always_pkcs8_rejection_is_rustls_error :
    (∀ (td : List TrustDomain) (ext : ExternalTls) (ctx : X509Context)
      (svid : X509Svid) (e : RustlsCause),
      ctx.default_svid = some svid →
      (build_root_store td ext.parsable ctx.bundle_set).is_empty = false →
      ext.client_accept svid.cert_chain
        (PrivateKeyDer.Pkcs8 svid.private_key) = Except.error e →
      build_client_config td ext ctx =
        Except.error (ClientConfigStreamError.RustlsError e)) ∧
    (∀ (td : List TrustDomain) (ext : ExternalTls) (ctx : X509Context)
      (svid : X509Svid) (e : RustlsCause),
      ctx.default_svid = some svid →
      (build_root_store td ext.parsable ctx.bundle_set).is_empty = false →
      ext.verifier_build (build_root_store td ext.parsable ctx.bundle_set)
        = Except.ok () →
      ext.server_accept svid.cert_chain
        (PrivateKeyDer.Pkcs8 svid.private_key) = Except.error e →
      build_server_config td ext ctx =
        Except.error (ServerConfigStreamError.RustlsError e)) ∧
    (∀ (td : List TrustDomain) (ext : ExternalTls) (ctx : X509Context)
      (cfg : ClientConfig),
      build_client_config td ext ctx = Except.ok cfg →
      ∃ svid, ctx.default_svid = some svid ∧
        cfg.key = PrivateKeyDer.Pkcs8 svid.private_key) ∧
    (∀ (td : List TrustDomain) (ext : ExternalTls) (ctx : X509Context)
      (cfg : ServerConfig),
      build_server_config td ext ctx = Except.ok cfg →
      ∃ svid, ctx.default_svid = some svid ∧
        cfg.key = PrivateKeyDer.Pkcs8 svid.private_key) := by
  refine ⟨?_, ?_, ?_, ?_⟩
  · intro td ext ctx svid e hsvid hne hacc
    simp [build_client_config, hne, hsvid, hacc]
  · intro td ext ctx svid e hsvid hne hver hacc
    simp [build_server_config, hne, hver, hsvid, hacc]
  · intro td ext ctx cfg h
    by_cases hemp :
        (build_root_store td ext.parsable ctx.bundle_set).is_empty = true
    · simp [build_client_config, hemp] at h
    · cases hsvid : ctx.default_svid with
      | none => simp [build_client_config, hemp, hsvid] at h
      | some svid =>
        cases hacc : ext.client_accept svid.cert_chain
            (PrivateKeyDer.Pkcs8 svid.private_key) with
        | error e => simp [build_client_config, hemp, hsvid, hacc] at h
        | ok u =>
          simp [build_client_config, hemp, hsvid, hacc] at h
          exact ⟨svid, rfl, by rw [← h]⟩
  · intro td ext ctx cfg h
    by_cases hemp :
        (build_root_store td ext.parsable ctx.bundle_set).is_empty = true
    · simp [build_server_config, hemp] at h
    · cases hver : ext.verifier_build
          (build_root_store td ext.parsable ctx.bundle_set) with
      | error e => simp [build_server_config, hemp, hver] at h
      | ok v =>
        cases hsvid : ctx.default_svid with
        | none => simp [build_server_config, hemp, hver, hsvid] at h
        | some svid =>
          cases hacc : ext.server_accept svid.cert_chain
              (PrivateKeyDer.Pkcs8 svid.private_key) with
          | error e =>
              simp [build_server_config, hemp, hver, hsvid, hacc] at h
          | ok u =>
            simp [build_server_config, hemp, hver, hsvid, hacc] at h
            exact ⟨svid, rfl, by rw [← h]⟩

/-- Witness for C10: a TLS library that rejects every key of the SVID's
chain makes both builders return RustlsError wrapping the cause, and on an
all-accepting library the published key is the PKCS#8 wrapping of the
SVID's key bytes. -/
theorem key_always_pkcs8_rejection_is_rustls_error_witness :
    build_client_config ["example.org"]
      ⟨fun _ => true, fun _ _ => Except.error 3, fun _ => Except.ok (),
        fun _ _ => Except.error 3⟩
      ⟨[⟨"spiffe://example.org/testservice", [⟨[3]⟩], [4]⟩],
        ⟨[("example.org", ⟨[⟨[1, 2]⟩]⟩)]⟩⟩ =
      Except.error (ClientConfigStreamError.RustlsError 3) ∧
    build_server_config ["example.org"]
      ⟨fun _ => true, fun _ _ => Except.error 3, fun _ => Except.ok (),
        fun _ _ => Except.error 3⟩
      ⟨[⟨"spiffe://example.org/testservice", [⟨[3]⟩], [4]⟩],
        ⟨[("example.org", ⟨[⟨[1, 2]⟩]⟩)]⟩⟩ =
      Except.error (ServerConfigStreamError.RustlsError 3) ∧
    (∃ svid,
      (X509Context.mk [⟨"spiffe://example.org/testservice", [⟨[3]⟩], [4]⟩]
        ⟨[("example.org", ⟨[⟨[1, 2]⟩]⟩)]⟩).default_svid = some svid ∧
      (ClientConfig.mk ⟨[⟨[1, 2]⟩]⟩ [⟨[3]⟩]
        (PrivateKeyDer.Pkcs8 [4])).key =
          PrivateKeyDer.Pkcs8 svid.private_key) := by
  refine ⟨key_always_pkcs8_rejection_is_rustls_error.1 ["example.org"]
      _ _ ⟨"spiffe://example.org/testservice", [⟨[3]⟩], [4]⟩ 3 rfl rfl rfl,
    key_always_pkcs8_rejection_is_rustls_error.2.1 ["example.org"]
      _ _ ⟨"spiffe://example.org/testservice", [⟨[3]⟩], [4]⟩ 3 rfl rfl rfl
      rfl,
    key_always_pkcs8_rejection_is_rustls_error.2.2.1 ["example.org"]
      ⟨fun _ => true, fun _ _ => Except.ok (), fun _ => Except.ok (),
        fun _ _ => Except.ok ()⟩
      ⟨[⟨"spiffe://example.org/testservice", [⟨[3]⟩], [4]⟩],
        ⟨[("example.org", ⟨[⟨[1, 2]⟩]⟩)]⟩⟩
      (ClientConfig.mk ⟨[⟨[1, 2]⟩]⟩ [⟨[3]⟩] (PrivateKeyDer.Pkcs8 [4]))
      rfl⟩

end RustlsSpiffe
